import Mathlib

/-!
Verification development for the contact-management REST backend
(contact repository, user repository, routes, database session handling).

The definitions below are a shallow embedding of the Python source files:
  src/src/repository/contacts.py  (contact store queries and mutations)
  src/src/repository/users.py     (user store operations)
  src/src/routes/contacts.py      (HTTP route handlers for contacts)
  src/src/database/db.py          (session acquisition and error mapping)
  src/main.py                     (healthchecker endpoint)

The SQLAlchemy-backed tables are modelled as in-memory lists of records with
a fresh-id counter; a query chain
  db.query(T).filter(p).first() / .all() / .limit(n).offset(k).all()
becomes List.find? / List.filter / drop-then-take on that list (SQL applies
OFFSET before LIMIT regardless of the order of the builder calls).
Mutation of a fetched ORM object followed by commit becomes replacement of
the first matching element, and db.delete becomes removal of the first
matching element. Python dates are calendar triples; Python dynamic-call
errors (TypeError on an arity mismatch, AttributeError on attribute access
on None) are made explicit with an Except result.
-/

/-- Calendar date (year, month, day), the model of Python datetime.date. -/
structure SimpleDate where
  year : Nat
  month : Nat
  day : Nat
deriving Repr, DecidableEq

/-- Gregorian leap-year test, as implemented by Python datetime. -/
def isLeap (y : Nat) : Bool :=
  (y % 4 == 0 && y % 100 != 0) || y % 400 == 0

/-- Number of days in a month of a given year. -/
def daysInMonth (y m : Nat) : Nat :=
  if m == 2 then (if isLeap y then 29 else 28)
  else if m == 4 || m == 6 || m == 9 || m == 11 then 30
  else 31

/-- Successor date, rolling over month and year boundaries. -/
def nextDay (d : SimpleDate) : SimpleDate :=
  if d.day < daysInMonth d.year d.month then
    { d with day := d.day + 1 }
  else if d.month < 12 then
    { year := d.year, month := d.month + 1, day := 1 }
  else
    { year := d.year + 1, month := 1, day := 1 }

/-- Date plus a number of days: the model of date + timedelta(days=n). -/
def addDays (d : SimpleDate) : Nat → SimpleDate
  | 0 => d
  | n + 1 => addDays (nextDay d) n

/-- Contact record, from the Contact ORM model used by
src/src/repository/contacts.py: id, five editable fields, owning user id. -/
structure Contact where
  id : Nat
  first_name : String
  second_name : String
  email : String
  phone : String
  birth_date : SimpleDate
  user_id : Nat
deriving Repr, DecidableEq

/-- User record, from the User ORM model used by src/src/repository/users.py
and the spec data model (confirmed defaults to false, avatar and
refresh token nullable). -/
structure User where
  id : Nat
  username : String
  email : String
  password : String
  confirmed : Bool
  avatar : Option String
  refresh_token : Option String
deriving Repr, DecidableEq

/-- ContactModel request schema (src.schemas): the five editable fields. -/
structure ContactModel where
  first_name : String
  second_name : String
  email : String
  phone : String
  birth_date : SimpleDate
deriving Repr, DecidableEq

/-- Modelled from the spec: UserModel signup schema (src/schemas.py is not in
the sources); the spec says a User is created on signup from username, email
and credential, with no avatar field in the signup payload. -/
structure UserModel where
  username : String
  email : String
  password : String
deriving Repr, DecidableEq

/-- The contacts table: stored rows plus the next store-assigned primary key. -/
structure ContactDB where
  contacts : List Contact
  next_id : Nat
deriving Repr, DecidableEq

/-- The users table: stored rows plus the next store-assigned primary key. -/
structure UserDB where
  users : List User
  next_id : Nat
deriving Repr, DecidableEq

/-- Replace the first element satisfying p by its image under f: the model of
mutating the ORM object returned by .first() and committing. -/
def updateFirst (p : α → Bool) (f : α → α) : List α → List α
  | [] => []
  | a :: l => if p a then f a :: l else a :: updateFirst p f l

/-- Remove the first element satisfying p: the model of db.delete on the ORM
object returned by .first(), followed by commit. -/
def removeFirst (p : α → Bool) : List α → List α
  | [] => []
  | a :: l => if p a then l else a :: removeFirst p l

/-- Python runtime errors that the embedded code can raise. -/
inductive PyError where
  | typeError
  | attributeError
deriving Repr, DecidableEq

/-- HTTP error response (HTTPException) with status code and detail. -/
structure HTTPError where
  status_code : Nat
  detail : String
deriving Repr, DecidableEq

/-- The 422 validation error FastAPI produces when the limit query parameter
exceeds the le bound of 500. -/
def limit_validation_error : HTTPError :=
  { status_code := 422, detail := "Input should be less than or equal to 500" }

/-- HTTPException(404, "Not Found") raised by the contact routes on an
absent lookup. -/
def not_found_error : HTTPError :=
  { status_code := 404, detail := "Not Found" }

/-- HTTPException(400, str(err)) raised by get_db on a SQLAlchemyError. -/
def bad_request_error (msg : String) : HTTPError :=
  { status_code := 400, detail := msg }

/-- HTTPException(500) raised by the healthchecker except clause. -/
def health_error : HTTPError :=
  { status_code := 500, detail := "Error connecting to the database" }

namespace Contacts

/-- get_contacts (src/src/repository/contacts.py): rows filtered to the
requesting user, then OFFSET offset LIMIT limit. -/
def get_contacts (limit offset : Nat) (user : User) (db : ContactDB) :
    List Contact :=
  (((db.contacts.filter fun c => c.user_id == user.id).drop offset).take limit)

/-- get_contact_by_id: first row with matching id and owning user. -/
def get_contact_by_id (contact_id : Nat) (user : User) (db : ContactDB) :
    Option Contact :=
  db.contacts.find? fun c => c.id == contact_id && c.user_id == user.id

/-- get_contact_by_email: first row with matching email and owning user. -/
def get_contact_by_email (email : String) (user : User) (db : ContactDB) :
    Option Contact :=
  db.contacts.find? fun c => c.email == email && c.user_id == user.id

/-- get_contact_by_phone: first row with matching phone and owning user. -/
def get_contact_by_phone (phone : String) (user : User) (db : ContactDB) :
    Option Contact :=
  db.contacts.find? fun c => c.phone == phone && c.user_id == user.id

/-- get_contact_by_first_name: first row with matching first name and owner. -/
def get_contact_by_first_name (first_name : String) (user : User)
    (db : ContactDB) : Option Contact :=
  db.contacts.find? fun c => c.first_name == first_name && c.user_id == user.id

/-- get_contact_by_second_name: first row with matching second name and
owner. -/
def get_contact_by_second_name (second_name : String) (user : User)
    (db : ContactDB) : Option Contact :=
  db.contacts.find? fun c =>
    c.second_name == second_name && c.user_id == user.id

/-- get_contact_by_birth_date: first row with matching birth date and owner. -/
def get_contact_by_birth_date (birth_date : SimpleDate) (user : User)
    (db : ContactDB) : Option Contact :=
  db.contacts.find? fun c =>
    c.birth_date == birth_date && c.user_id == user.id

/-- create: Contact(**body.dict(), user=current_user); add, commit, refresh.
The store assigns the next primary key; the returned record is the persisted
row. -/
def create (body : ContactModel) (current_user : User) (db : ContactDB) :
    Contact × ContactDB :=
  let contact : Contact :=
    { id := db.next_id
      first_name := body.first_name
      second_name := body.second_name
      email := body.email
      phone := body.phone
      birth_date := body.birth_date
      user_id := current_user.id }
  (contact, { contacts := db.contacts ++ [contact], next_id := db.next_id + 1 })

/-- The five field assignments performed by update on a fetched contact. -/
def applyBody (body : ContactModel) (c : Contact) : Contact :=
  { c with
      first_name := body.first_name
      second_name := body.second_name
      email := body.email
      phone := body.phone
      birth_date := body.birth_date }

/-- update: fetch by id and owner; if present overwrite the five editable
fields and commit, returning the mutated row; otherwise return None with the
store untouched. -/
def update (contact_id : Nat) (body : ContactModel) (user : User)
    (db : ContactDB) : Option Contact × ContactDB :=
  match get_contact_by_id contact_id user db with
  | none => (none, db)
  | some c =>
      (some (applyBody body c),
       { db with
           contacts := updateFirst
             (fun x => x.id == contact_id && x.user_id == user.id)
             (applyBody body) db.contacts })

/-- remove: fetch by id and owner; if present delete the row and commit,
returning the pre-deletion record; otherwise return None with the store
untouched. -/
def remove (contact_id : Nat) (user : User) (db : ContactDB) :
    Option Contact × ContactDB :=
  match get_contact_by_id contact_id user db with
  | none => (none, db)
  | some c =>
      (some c,
       { db with
           contacts := removeFirst
             (fun x => x.id == contact_id && x.user_id == user.id)
             db.contacts })

/-- get_contacts_birthday: rows whose birth-date month equals the month of
start_date and whose birth-date day lies between the day of start_date and
the day of end_date inclusive. Faithful to the source: there is no filter on
the owning user in this query. -/
def get_contacts_birthday (start_date end_date : SimpleDate)
    (db : ContactDB) : List Contact :=
  db.contacts.filter fun c =>
    c.birth_date.month == start_date.month &&
    (decide (start_date.day ≤ c.birth_date.day) &&
     decide (c.birth_date.day ≤ end_date.day))

end Contacts

namespace Users

/-- get_user_by_email (src/src/repository/users.py): first user whose email
matches (filter_by(email=email).first()). -/
def get_user_by_email (email : String) (db : UserDB) : Option User :=
  db.users.find? fun u => u.email == email

/-- create_user: User(**body.dict(), avatar=Gravatar(body.email).get_image());
add, commit, refresh. The external Gravatar lookup is a parameter: a function
from the email string to the image URL. The signup schema carries no avatar
field, so the avatar of the persisted row is always the Gravatar image. -/
def create_user (gravatar_image : String → String) (body : UserModel)
    (db : UserDB) : User × UserDB :=
  let new_user : User :=
    { id := db.next_id
      username := body.username
      email := body.email
      password := body.password
      confirmed := false
      avatar := some (gravatar_image body.email)
      refresh_token := none }
  (new_user, { users := db.users ++ [new_user], next_id := db.next_id + 1 })

/-- update_token: overwrite the refresh token of the given user and commit. -/
def update_token (user : User) (refresh_token : Option String) (db : UserDB) :
    UserDB :=
  { db with
      users := updateFirst (fun u => u.id == user.id)
        (fun u => { u with refresh_token := refresh_token }) db.users }

/-- confirmed_email: user = get_user_by_email(email); user.confirmed = True;
commit. There is no None check: when no user matches, the attribute
assignment on None raises AttributeError. -/
def confirmed_email (email : String) (db : UserDB) : Except PyError UserDB :=
  match get_user_by_email email db with
  | none => .error .attributeError
  | some _ =>
      .ok { db with
              users := updateFirst (fun u => u.email == email)
                (fun u => { u with confirmed := true }) db.users }

/-- update_avatar: user = get_user_by_email(email); user.avatar = url; commit;
return user. There is no None check: when no user matches, the attribute
assignment on None raises AttributeError. -/
def update_avatar (email url : String) (db : UserDB) :
    Except PyError (User × UserDB) :=
  match get_user_by_email email db with
  | none => .error .attributeError
  | some u =>
      .ok ({ u with avatar := some url },
           { db with
               users := updateFirst (fun x => x.email == email)
                 (fun x => { x with avatar := some url }) db.users })

end Users

/-- Outcome of using a database session during a request: either the handler
result, or a SQLAlchemyError raised by the driver. -/
inductive StorageOutcome (α : Type) where
  | ok (a : α)
  | storageError (msg : String)
deriving Repr, DecidableEq

/-- get_db (src/src/database/db.py): yields the session; a SQLAlchemyError
escaping the request body is re-raised as
HTTPException(status_code=400 BAD REQUEST, detail=str(err)). -/
def get_db_handle (outcome : StorageOutcome α) : Except HTTPError α :=
  match outcome with
  | .ok a => .ok a
  | .storageError msg => .error (bad_request_error msg)

/-- What the storage does when the healthchecker runs SELECT 1: a row comes
back, no row comes back, or the driver raises. -/
inductive HealthOutcome where
  | row
  | noRow
  | failure (msg : String)
deriving Repr, DecidableEq

/-- healthchecker (src/main.py): executes SELECT 1 inside try. A returned row
yields the welcome message. A missing row raises HTTPException(500) inside
the try block, which the except-Exception clause catches and replaces, so
both the missing-row case and a driver failure surface as
HTTPException(500, "Error connecting to the database"). -/
def healthchecker (db : HealthOutcome) : Except HTTPError String :=
  match db with
  | .row => .ok "Welcome to FastAPI!"
  | .noRow => .error health_error
  | .failure _ => .error health_error

namespace Routes

/-- Route GET /contacts/ (src/src/routes/contacts.py): the limit query
parameter is declared Query(10, le=500), so FastAPI rejects limit > 500 with
a 422 validation error before the handler runs; otherwise the handler
returns the repository list. -/
def get_contacts (limit offset : Nat) (current_user : User)
    (db : ContactDB) : Except HTTPError (List Contact) :=
  if 500 < limit then
    .error limit_validation_error
  else
    .ok (Contacts.get_contacts limit offset current_user db)

/-- Route GET /contacts/\x7bcontact_id\x7d: 200 with the contact, or 404 with
detail "Not Found" when the owner-scoped lookup is absent. -/
def get_contact (contact_id : Nat) (current_user : User) (db : ContactDB) :
    Except HTTPError Contact :=
  match Contacts.get_contact_by_id contact_id current_user db with
  | none => .error not_found_error
  | some c => .ok c

/-- Parameter count of def get_contacts_birthday in
src/src/repository/contacts.py: start_date, end_date, db. -/
def get_contacts_birthday_param_count : Nat := 3

/-- Positional argument count at the call site inside get_birthday_list in
src/src/routes/contacts.py: start_date, end_date, current_user, db. -/
def get_birthday_list_arg_count : Nat := 4

/-- Python dynamic call: running the body requires the positional argument
count to match the parameter count of the def; otherwise the call raises
TypeError before the body runs. -/
def callWithArity (param_count arg_count : Nat) (run : Unit → α) :
    Except PyError α :=
  if arg_count = param_count then .ok (run ()) else .error .typeError

/-- Route GET /contacts/birthday_list/: start_date = today, end_date = today
plus 7 days, then the call
get_contacts_birthday(start_date, end_date, current_user, db) — four
positional arguments against a three-parameter def, modelled by
callWithArity around the repository query. -/
def get_birthday_list (today : SimpleDate) (_current_user : User)
    (db : ContactDB) : Except PyError (List Contact) :=
  let start_date := today
  let end_date := addDays start_date 7
  callWithArity get_contacts_birthday_param_count get_birthday_list_arg_count
    (fun _ => Contacts.get_contacts_birthday start_date end_date db)

end Routes

/-! Helper lemmas about updateFirst, removeFirst and find?. -/

theorem length_updateFirst (p : α → Bool) (f : α → α) (l : List α) :
    (updateFirst p f l).length = l.length := by
  induction l with
  | nil => rfl
  | cons a l ih =>
    by_cases h : p a <;> simp [updateFirst, h, ih]

theorem find?_updateFirst_some {p : α → Bool} {f : α → α} {l : List α}
    {c : α} (h : l.find? p = some c) (hpres : p (f c) = true) :
    (updateFirst p f l).find? p = some (f c) := by
  induction l with
  | nil => simp [List.find?] at h
  | cons a l ih =>
    by_cases hpa : p a
    · rw [List.find?_cons_of_pos _ hpa] at h
      injection h with h
      subst h
      simp [updateFirst, hpa, List.find?_cons_of_pos _ hpres]
    · rw [List.find?_cons_of_neg _ hpa] at h
      simp [updateFirst, hpa, List.find?_cons_of_neg _ hpa, ih h]

theorem mem_updateFirst_of_find? {p : α → Bool} {f : α → α} {l : List α}
    {c : α} (h : l.find? p = some c) :
    ∀ a ∈ updateFirst p f l, a ∈ l ∨ a = f c := by
  induction l with
  | nil => intro a ha; simp [updateFirst] at ha
  | cons b l ih =>
    intro a ha
    by_cases hpb : p b
    · rw [List.find?_cons_of_pos _ hpb] at h
      injection h with h
      subst h
      simp [updateFirst, hpb] at ha
      rcases ha with ha | ha
      · exact Or.inr ha
      · exact Or.inl (List.mem_cons_of_mem _ ha)
    · rw [List.find?_cons_of_neg _ hpb] at h
      simp [updateFirst, hpb] at ha
      rcases ha with ha | ha
      · exact Or.inl (ha ▸ List.mem_cons_self b l)
      · rcases ih h a ha with h2 | h2
        · exact Or.inl (List.mem_cons_of_mem _ h2)
        · exact Or.inr h2

theorem countP_removeFirst {p : α → Bool} {l : List α} {c : α}
    (h : l.find? p = some c) :
    (removeFirst p l).countP p + 1 = l.countP p := by
  induction l with
  | nil => simp [List.find?] at h
  | cons a l ih =>
    by_cases hpa : p a
    · simp [removeFirst, hpa, List.countP_cons]
    · rw [List.find?_cons_of_neg _ hpa] at h
      simp [removeFirst, hpa, List.countP_cons, ih h]

theorem find?_eq_none_of_countP_eq_zero {p : α → Bool} {l : List α}
    (h : l.countP p = 0) : l.find? p = none := by
  rw [List.find?_eq_none]
  intro x hx
  exact List.countP_eq_zero.mp h x hx

theorem not_mem_of_countP_eq_zero {p : α → Bool} {l : List α} {c : α}
    (hpc : p c = true) (h : l.countP p = 0) : c ∉ l :=
  fun hmem => List.countP_eq_zero.mp h c hmem hpc

theorem find?_append_of_none {p : α → Bool} {l₁ l₂ : List α}
    (h : ∀ a ∈ l₁, p a = false) : (l₁ ++ l₂).find? p = l₂.find? p := by
  induction l₁ with
  | nil => rfl
  | cons a l ih =>
    have ha : p a = false := h a (List.mem_cons_self a l)
    rw [List.cons_append, List.find?_cons_of_neg _ (by simp [ha])]
    exact ih fun x hx => h x (List.mem_cons_of_mem _ hx)

/-! Concrete records used to exercise the operations. -/

/-- Demo user with id 1. -/
def userA : User :=
  { id := 1, username := "alice", email := "alice@example.com",
    password := "secret1", confirmed := true, avatar := none,
    refresh_token := none }

/-- Demo user with id 2, distinct from userA. -/
def userB : User :=
  { id := 2, username := "bob", email := "bob@example.com",
    password := "secret2", confirmed := true, avatar := none,
    refresh_token := none }

/-- A contact owned by userA with a birthday on February 5. -/
def contactOfA : Contact :=
  { id := 10, first_name := "Cary", second_name := "Smith",
    email := "cary@example.com", phone := "0996458844",
    birth_date := { year := 2000, month := 2, day := 5 }, user_id := 1 }

/-- Contact store holding only the contact owned by userA. -/
def demoDB : ContactDB := { contacts := [contactOfA], next_id := 11 }

/-- Request body with fresh values for the five editable fields. -/
def demoBody : ContactModel :=
  { first_name := "New", second_name := "Name", email := "new@example.com",
    phone := "1112223334",
    birth_date := { year := 1999, month := 7, day := 14 } }

/-- User store holding only userA. -/
def demoUserDB : UserDB := { users := [userA], next_id := 3 }

/-- A concrete avatar-lookup function standing in for the Gravatar service. -/
def demoGravatar (email : String) : String :=
  "https://www.gravatar.com/avatar/" ++ email

/-- Demo signup payload. -/
def demoSignup : UserModel :=
  { username := "carol", email := "carol@example.com", password := "pw3" }

/-- Demo signup payload with a different username but the same email. -/
def demoSignup2 : UserModel :=
  { username := "caroline", email := "carol@example.com", password := "pw4" }

/-- Empty user store. -/
def emptyUserDB : UserDB := { users := [], next_id := 1 }

/-! Claim theorems. -/

/-- C1: the claim counts the birthday-range listing among the owner-scoped
operations, and the spec invariant requires every Contact read to filter by
the requesting user. The source query get_contacts_birthday carries no
owner filter at all (its def does not even take a user parameter, although
its caller in the routes passes one), so a query made on behalf of userB
returns the contact owned by userA: the code contradicts the intended
owner-scoping invariant. -/
theorem C1_birthday_query_returns_foreign_contact :
    contactOfA ∈ Contacts.get_contacts_birthday
        { year := 2024, month := 2, day := 1 }
        { year := 2024, month := 2, day := 10 } demoDB
      ∧ contactOfA.user_id ≠ userB.id := by decide

/-- C2: the birthday-range query returns exactly the stored contacts whose
birth-date month equals the month of start_date and whose birth-date day
lies in the inclusive interval from the day of start_date to the day of
end_date, the birth year being ignored; when the window spans a month
boundary (day of end_date below day of start_date) it returns nothing. -/
theorem C2_birthday_range_semantics (start_date end_date : SimpleDate)
    (db : ContactDB) :
    (∀ c, c ∈ Contacts.get_contacts_birthday start_date end_date db ↔
        c ∈ db.contacts ∧ c.birth_date.month = start_date.month ∧
        start_date.day ≤ c.birth_date.day ∧ c.birth_date.day ≤ end_date.day)
    ∧ (end_date.day < start_date.day →
        Contacts.get_contacts_birthday start_date end_date db = []) := by
  constructor
  · intro c
    simp [Contacts.get_contacts_birthday, List.mem_filter, and_assoc]
  · intro hlt
    rw [Contacts.get_contacts_birthday, List.filter_eq_nil_iff]
    intro c _
    simp only [Bool.and_eq_true, beq_iff_eq, decide_eq_true_eq, not_and]
    intro _ h1 h2
    omega

/-- C2 witness: the month-spanning window from January 28 to February 14
returns no contacts on the demo store. -/
theorem C2_birthday_range_semantics_witness :
    Contacts.get_contacts_birthday
        { year := 2024, month := 1, day := 28 }
        { year := 2024, month := 2, day := 14 } demoDB = [] :=
  (C2_birthday_range_semantics
      { year := 2024, month := 1, day := 28 }
      { year := 2024, month := 2, day := 14 } demoDB).2 (by decide)

/-- C3: the claim says GET /contacts/birthday_list returns a 200 with the
7-day window. The route does compute start_date = today and end_date =
today plus 7 days, but then calls get_contacts_birthday with four
positional arguments (start_date, end_date, current_user, db) while the def
in the repository takes three (start_date, end_date, db), so every request
raises TypeError and the endpoint never returns the list. -/
theorem C3_birthday_route_raises_type_error (today : SimpleDate)
    (current_user : User) (db : ContactDB) :
    Routes.get_birthday_list today current_user db
      = Except.error PyError.typeError := rfl

/-- C4: when a contact matching contact_id and owner exists, update returns
the record with exactly the five editable fields overwritten by the body,
id and owning user id unchanged; the post-state lookup returns the updated
record and every row of the post-state store is either an original row or
the updated record. When no match exists, update returns none and leaves
the store untouched. -/
theorem C4_update_semantics (contact_id : Nat) (body : ContactModel)
    (user : User) (db : ContactDB) :
    (∀ c, Contacts.get_contact_by_id contact_id user db = some c →
        (Contacts.update contact_id body user db).1
            = some (Contacts.applyBody body c)
        ∧ (Contacts.applyBody body c).first_name = body.first_name
        ∧ (Contacts.applyBody body c).second_name = body.second_name
        ∧ (Contacts.applyBody body c).email = body.email
        ∧ (Contacts.applyBody body c).phone = body.phone
        ∧ (Contacts.applyBody body c).birth_date = body.birth_date
        ∧ (Contacts.applyBody body c).id = c.id
        ∧ (Contacts.applyBody body c).user_id = c.user_id
        ∧ Contacts.get_contact_by_id contact_id user
            (Contacts.update contact_id body user db).2
            = some (Contacts.applyBody body c)
        ∧ ∀ d ∈ (Contacts.update contact_id body user db).2.contacts,
            d ∈ db.contacts ∨ d = Contacts.applyBody body c)
    ∧ (Contacts.get_contact_by_id contact_id user db = none →
        Contacts.update contact_id body user db = (none, db)) := by
  constructor
  · intro c hc
    have hfind : db.contacts.find?
        (fun x => x.id == contact_id && x.user_id == user.id) = some c := hc
    have hpc := List.find?_some hfind
    have hpres : ((Contacts.applyBody body c).id == contact_id &&
        (Contacts.applyBody body c).user_id == user.id) = true := by
      simpa [Contacts.applyBody] using hpc
    refine ⟨by simp [Contacts.update, hc], by simp [Contacts.applyBody],
      by simp [Contacts.applyBody], by simp [Contacts.applyBody],
      by simp [Contacts.applyBody], by simp [Contacts.applyBody],
      by simp [Contacts.applyBody], by simp [Contacts.applyBody], ?_, ?_⟩
    · simp only [Contacts.update, Contacts.get_contact_by_id, hfind]
      exact find?_updateFirst_some hfind hpres
    · simp only [Contacts.update, hc]
      exact mem_updateFirst_of_find? hfind
  · intro hnone
    simp [Contacts.update, hnone]

/-- C4 witness: updating contact 10 as its owner userA succeeds with the
overwritten record; updating it as userB returns none and leaves the store
unchanged. -/
theorem C4_update_semantics_witness :
    (Contacts.update 10 demoBody userA demoDB).1
        = some (Contacts.applyBody demoBody contactOfA)
    ∧ Contacts.update 10 demoBody userB demoDB = (none, demoDB) :=
  ⟨((C4_update_semantics 10 demoBody userA demoDB).1 contactOfA
      (by decide)).1,
   (C4_update_semantics 10 demoBody userB demoDB).2 (by decide)⟩

/-- C5: when a contact matching id and owner exists and at most one row
matches that id and owner (the primary-key situation), the first remove
returns the pre-deletion record, the post-state store no longer contains
it, and a second remove with the same id and owner returns none and leaves
the store unchanged. -/
theorem C5_remove_idempotent (contact_id : Nat) (user : User)
    (db : ContactDB) (c : Contact)
    (hc : Contacts.get_contact_by_id contact_id user db = some c)
    (huniq : db.contacts.countP
        (fun x => x.id == contact_id && x.user_id == user.id) ≤ 1) :
    (Contacts.remove contact_id user db).1 = some c
    ∧ c ∉ (Contacts.remove contact_id user db).2.contacts
    ∧ Contacts.remove contact_id user (Contacts.remove contact_id user db).2
        = (none, (Contacts.remove contact_id user db).2) := by
  have hfind : db.contacts.find?
      (fun x => x.id == contact_id && x.user_id == user.id) = some c := hc
  have hcount := countP_removeFirst hfind
  have hzero : (removeFirst
      (fun x => x.id == contact_id && x.user_id == user.id)
      db.contacts).countP
      (fun x => x.id == contact_id && x.user_id == user.id) = 0 := by omega
  have hpc := List.find?_some hfind
  have hnone := find?_eq_none_of_countP_eq_zero hzero
  refine ⟨by simp [Contacts.remove, hc], ?_, ?_⟩
  · simp only [Contacts.remove, hc]
    exact not_mem_of_countP_eq_zero hpc hzero
  · simp only [Contacts.remove, hc]
    simp [Contacts.remove, Contacts.get_contact_by_id, hnone]

/-- C5 witness: removing contact 10 as userA from the demo store returns the
record, exercising both hypotheses on concrete data. -/
theorem C5_remove_idempotent_witness :
    (Contacts.remove 10 userA demoDB).1 = some contactOfA :=
  (C5_remove_idempotent 10 userA demoDB contactOfA (by decide)
      (by decide)).1

/-- C6: the repository list returns at most limit contacts, all owned by the
requesting user; the route declares limit with an upper bound of 500, so a
limit above 500 is rejected with a 422 validation error and never honored,
while a limit within the bound reaches the repository unchanged. -/
theorem C6_list_limit_cap (limit offset : Nat) (user : User)
    (db : ContactDB) :
    (Contacts.get_contacts limit offset user db).length ≤ limit
    ∧ (∀ c ∈ Contacts.get_contacts limit offset user db,
        c.user_id = user.id)
    ∧ (500 < limit → Routes.get_contacts limit offset user db
        = Except.error limit_validation_error)
    ∧ (limit ≤ 500 → Routes.get_contacts limit offset user db
        = Except.ok (Contacts.get_contacts limit offset user db)) := by
  refine ⟨?_, ?_, ?_, ?_⟩
  · simp only [Contacts.get_contacts]
    simp [List.length_take]
  · intro c hcmem
    have h1 : c ∈ db.contacts.filter (fun x => x.user_id == user.id) :=
      List.drop_subset _ _ (List.take_subset _ _ hcmem)
    have h2 := (List.mem_filter.mp h1).2
    simpa using h2
  · intro h
    simp only [Routes.get_contacts]
    rw [if_pos h]
  · intro h
    simp only [Routes.get_contacts]
    rw [if_neg (by omega)]

/-- C6 witness: a limit of 501 is rejected by the route with a 422, and a
limit of 10 is passed through to the repository. -/
theorem C6_list_limit_cap_witness :
    Routes.get_contacts 501 0 userA demoDB
      = Except.error limit_validation_error
    ∧ Routes.get_contacts 10 0 userA demoDB
      = Except.ok (Contacts.get_contacts 10 0 userA demoDB) :=
  ⟨(C6_list_limit_cap 501 0 userA demoDB).2.2.1 (by decide),
   (C6_list_limit_cap 10 0 userA demoDB).2.2.2 (by decide)⟩

/-- C7: when the fresh primary key of the store is unused, create followed
by get_contact_by_id on the returned id with the same owner yields exactly
the created record, whose five contact fields equal the request body and
whose owning user id is the creating user. -/
theorem C7_create_then_get (body : ContactModel) (user : User)
    (db : ContactDB)
    (hfresh : ∀ c ∈ db.contacts, c.id ≠ db.next_id) :
    Contacts.get_contact_by_id (Contacts.create body user db).1.id user
        (Contacts.create body user db).2
      = some (Contacts.create body user db).1
    ∧ (Contacts.create body user db).1.first_name = body.first_name
    ∧ (Contacts.create body user db).1.second_name = body.second_name
    ∧ (Contacts.create body user db).1.email = body.email
    ∧ (Contacts.create body user db).1.phone = body.phone
    ∧ (Contacts.create body user db).1.birth_date = body.birth_date
    ∧ (Contacts.create body user db).1.user_id = user.id := by
  have hall : ∀ a ∈ db.contacts,
      (a.id == db.next_id && a.user_id == user.id) = false := by
    intro a ha
    have hne := hfresh a ha
    simp [hne]
  refine ⟨?_, by simp [Contacts.create], by simp [Contacts.create],
    by simp [Contacts.create], by simp [Contacts.create],
    by simp [Contacts.create], by simp [Contacts.create]⟩
  simp only [Contacts.create, Contacts.get_contact_by_id]
  rw [find?_append_of_none hall]
  simp [List.find?]

/-- C7 witness: creating a contact for userB in the demo store (whose fresh
id 11 is unused) and looking it up as userB returns the created record. -/
theorem C7_create_then_get_witness :
    Contacts.get_contact_by_id (Contacts.create demoBody userB demoDB).1.id
        userB (Contacts.create demoBody userB demoDB).2
      = some (Contacts.create demoBody userB demoDB).1 :=
  (C7_create_then_get demoBody userB demoDB (by decide)).1

/-- C8 counterexample: the claim says a storage connectivity failure is
surfaced with HTTP status 500 or 503. The get_db dependency that wraps
every repository request converts a SQLAlchemyError into
HTTPException(400 BAD REQUEST, str(err)), so the surfaced status there is
400, which is neither 500 nor 503. -/
theorem C8_storage_error_surfaces_as_400 :
    (get_db_handle (StorageOutcome.storageError "connection refused")
        : Except HTTPError Unit)
      = Except.error (bad_request_error "connection refused")
    ∧ (bad_request_error "connection refused").status_code ≠ 500
    ∧ (bad_request_error "connection refused").status_code ≠ 503 :=
  ⟨rfl, by decide, by decide⟩

/-- C8 amended: a storage failure at the healthchecker surfaces as a 500
error; a storage failure during request handling is converted by get_db
into a 400 error response; an absent record is never surfaced as a storage
error: the owner-scoped lookup yields the absent result which the route
maps to 404, a status distinct from both storage-failure statuses. -/
theorem C8_error_paths (msg : String) (contact_id : Nat) (user : User)
    (db : ContactDB) :
    healthchecker (HealthOutcome.failure msg) = Except.error health_error
    ∧ health_error.status_code = 500
    ∧ (get_db_handle (StorageOutcome.storageError msg)
          : Except HTTPError Unit)
        = Except.error (bad_request_error msg)
    ∧ (bad_request_error msg).status_code = 400
    ∧ (Contacts.get_contact_by_id contact_id user db = none →
        Routes.get_contact contact_id user db
          = Except.error not_found_error)
    ∧ not_found_error.status_code = 404
    ∧ not_found_error.status_code ≠ (bad_request_error msg).status_code
    ∧ not_found_error.status_code ≠ health_error.status_code := by
  refine ⟨rfl, rfl, rfl, rfl, ?_, rfl,
    by simp [bad_request_error, not_found_error], by decide⟩
  intro h
  simp [Routes.get_contact, h]

/-- C8 witness: looking up the absent contact id 99 as userB yields the 404
not-found response, not a storage error. -/
theorem C8_error_paths_witness :
    Routes.get_contact 99 userB demoDB = Except.error not_found_error :=
  (C8_error_paths "connection refused" 99 userB demoDB).2.2.2.2.1
    (by decide)

/-- C9: create_user persists a new user whose avatar is exactly the image
computed by the external Gravatar lookup from the signup email (the signup
schema has no avatar field, so none can be supplied), returns that persisted
record, and the assigned avatar depends only on the email: any signup with
the same email receives the same avatar. -/
theorem C9_create_user_gravatar (gravatar_image : String → String)
    (body : UserModel) (db : UserDB) :
    (Users.create_user gravatar_image body db).1.avatar
        = some (gravatar_image body.email)
    ∧ (Users.create_user gravatar_image body db).1
        ∈ (Users.create_user gravatar_image body db).2.users
    ∧ (Users.create_user gravatar_image body db).1.email = body.email
    ∧ (Users.create_user gravatar_image body db).1.username = body.username
    ∧ ∀ body2 db2, body2.email = body.email →
        (Users.create_user gravatar_image body2 db2).1.avatar
          = (Users.create_user gravatar_image body db).1.avatar := by
  refine ⟨by simp [Users.create_user], ?_, by simp [Users.create_user],
    by simp [Users.create_user], ?_⟩
  · simp [Users.create_user]
  · intro body2 db2 h
    simp [Users.create_user, h]

/-- C9 witness: a concrete signup receives the Gravatar image of its email,
and a second signup with the same email receives the same avatar. -/
theorem C9_create_user_gravatar_witness :
    (Users.create_user demoGravatar demoSignup emptyUserDB).1.avatar
      = some (demoGravatar demoSignup.email)
    ∧ (Users.create_user demoGravatar demoSignup2 demoUserDB).1.avatar
      = (Users.create_user demoGravatar demoSignup emptyUserDB).1.avatar :=
  ⟨(C9_create_user_gravatar demoGravatar demoSignup emptyUserDB).1,
   (C9_create_user_gravatar demoGravatar demoSignup emptyUserDB).2.2.2.2
     demoSignup2 demoUserDB (by decide)⟩

/-- C10: confirm-email and set-avatar presuppose a user with the given
email. Under that precondition confirmed_email succeeds and the user looked
up afterwards has the confirmed flag true, and update_avatar succeeds
returning the record with the overwritten avatar URL, which the post-state
lookup also returns. Without the precondition neither operation takes an
error branch of its own: both raise AttributeError by accessing an
attribute of None. -/
theorem C10_email_ops_presuppose_user (email url : String) (db : UserDB) :
    (∀ u, Users.get_user_by_email email db = some u →
        (∃ db2, Users.confirmed_email email db = Except.ok db2
          ∧ Users.get_user_by_email email db2
              = some { u with confirmed := true })
        ∧ ∃ u2 db3, Users.update_avatar email url db = Except.ok (u2, db3)
            ∧ u2 = { u with avatar := some url }
            ∧ Users.get_user_by_email email db3 = some u2)
    ∧ (Users.get_user_by_email email db = none →
        Users.confirmed_email email db = Except.error PyError.attributeError
        ∧ Users.update_avatar email url db
            = Except.error PyError.attributeError) := by
  constructor
  · intro u hu
    have hfind : db.users.find? (fun x => x.email == email) = some u := hu
    have hpu := List.find?_some hfind
    constructor
    · refine ⟨
        { db with
            users := updateFirst (fun x => x.email == email)
              (fun x => { x with confirmed := true }) db.users },
        ?_, ?_⟩
      · simp [Users.confirmed_email, Users.get_user_by_email, hfind]
      · have hpres : (({ u with confirmed := true } : User).email == email)
            = true := by simpa using hpu
        simpa [Users.get_user_by_email]
          using find?_updateFirst_some hfind hpres
    · refine ⟨{ u with avatar := some url },
        { db with
            users := updateFirst (fun x => x.email == email)
              (fun x => { x with avatar := some url }) db.users },
        ?_, rfl, ?_⟩
      · simp [Users.update_avatar, Users.get_user_by_email, hfind]
      · have hpres : (({ u with avatar := some url } : User).email == email)
            = true := by simpa using hpu
        simpa [Users.get_user_by_email]
          using find?_updateFirst_some hfind hpres
  · intro hnone
    have hfindnone : db.users.find? (fun x => x.email == email) = none :=
      hnone
    constructor <;>
      simp [Users.confirmed_email, Users.update_avatar,
        Users.get_user_by_email, hfindnone]

/-- C10 witness: confirming the present email of userA succeeds and the
post-state lookup shows the confirmed flag, while confirming an absent
email raises AttributeError. -/
theorem C10_email_ops_presuppose_user_witness :
    (∃ db2, Users.confirmed_email "alice@example.com" demoUserDB
        = Except.ok db2
      ∧ Users.get_user_by_email "alice@example.com" db2
          = some { userA with confirmed := true })
    ∧ Users.confirmed_email "nobody@example.com" demoUserDB
        = Except.error PyError.attributeError :=
  ⟨((C10_email_ops_presuppose_user "alice@example.com"
      "https://img.example/a.png" demoUserDB).1 userA (by decide)).1,
   ((C10_email_ops_presuppose_user "nobody@example.com"
      "https://img.example/a.png" demoUserDB).2 (by decide)).1⟩
